import Mathlib

/-!
Shallow embedding of `libs/langchain/langchain/retrievers/document_compressors/base.py`:
the abstract `BaseDocumentCompressor` with its default `acompress_documents`,
and `DocumentCompressorPipeline` with its synchronous and asynchronous loops.
Python sequences of documents are modelled as `List Document`, fallible methods
return `Except String` (the `String` is the `ValueError` message), and the
`await`/executor plumbing is erased to the values it produces.
-/

/-- A retrieved text document (`langchain_core.documents.Document`): page
content plus string-valued metadata. -/
structure Document where
  page_content : String
  metadata : List (String × String)
deriving DecidableEq, Repr

/-- Abstract stand-in for `langchain.callbacks.manager.Callbacks`: the pipeline
only forwards this value and never inspects it, so a list of handler names
suffices. -/
abbrev Callbacks := List String

/-- Model of a concrete `BaseDocumentCompressor` subclass: the body of its
synchronous `compress_documents`, the body of its asynchronous
`acompress_documents`, and whether each of the two method signatures declares a
`callbacks` parameter (the pipeline inspects the two signatures separately with
`inspect.signature`).  A method whose signature lacks `callbacks` is modelled
as the same function invoked with the default `none`. -/
structure BaseDocumentCompressor where
  compressFn : List Document → String → Option Callbacks → List Document
  acompressFn : List Document → String → Option Callbacks → List Document
  syncAcceptsCallbacks : Bool
  asyncAcceptsCallbacks : Bool

/-- Model of a `BaseDocumentTransformer`: the bodies of `transform_documents`
and `atransform_documents`; neither receives the query or the callbacks. -/
structure BaseDocumentTransformer where
  transformFn : List Document → List Document
  atransformFn : List Document → List Document

/-- An element of `DocumentCompressorPipeline.transformers`.  The `other`
constructor carries the printed form of a value that is neither a
`BaseDocumentCompressor` nor a `BaseDocumentTransformer` (the annotated union
type is not enforced at runtime), which both loops reject with `ValueError`. -/
inductive TransformerElem where
  | comp : BaseDocumentCompressor → TransformerElem
  | trans : BaseDocumentTransformer → TransformerElem
  | other : String → TransformerElem

/-- True exactly on the `other` constructor, the values the loops reject. -/
def TransformerElem.isOther : TransformerElem → Bool
  | .other _ => true
  | _ => false

/-- True exactly on `BaseDocumentTransformer` elements. -/
def TransformerElem.isTrans : TransformerElem → Bool
  | .trans _ => true
  | _ => false

/-- Default `BaseDocumentCompressor.acompress_documents` (source lines 25-34):
it submits the synchronous `compress_documents` with the same three arguments
to a background executor via `run_in_executor` and returns that call's value. -/
def BaseDocumentCompressor.acompress_documents_default
    (c : BaseDocumentCompressor) (documents : List Document) (query : String)
    (callbacks : Option Callbacks) : List Document :=
  c.compressFn documents query callbacks

/-- One iteration of the `DocumentCompressorPipeline.compress_documents` loop
body (source lines 55-72): a compressor is called with `callbacks` exactly when
its synchronous signature declares that parameter, a transformer is called on
the documents alone, and anything else raises `ValueError`. -/
def compressStep (query : String) (callbacks : Option Callbacks)
    (documents : List Document) (t : TransformerElem) :
    Except String (List Document) :=
  match t with
  | .comp c =>
      if c.syncAcceptsCallbacks then
        .ok (c.compressFn documents query callbacks)
      else
        .ok (c.compressFn documents query none)
  | .trans tr => .ok (tr.transformFn documents)
  | .other r => .error ("Got unexpected transformer type: " ++ r)

/-- One iteration of the `DocumentCompressorPipeline.acompress_documents` loop
body (source lines 82-99): same shape as `compressStep`, but it inspects the
asynchronous signature and awaits the asynchronous method bodies. -/
def acompressStep (query : String) (callbacks : Option Callbacks)
    (documents : List Document) (t : TransformerElem) :
    Except String (List Document) :=
  match t with
  | .comp c =>
      if c.asyncAcceptsCallbacks then
        .ok (c.acompressFn documents query callbacks)
      else
        .ok (c.acompressFn documents query none)
  | .trans tr => .ok (tr.atransformFn documents)
  | .other r => .error ("Got unexpected transformer type: " ++ r)

/-- The `for _transformer in self.transformers` loop of `compress_documents`:
the local `documents` variable is rebound by each iteration and a raised
`ValueError` aborts the loop. -/
def compressLoop (query : String) (callbacks : Option Callbacks) :
    List TransformerElem → List Document → Except String (List Document)
  | [], documents => .ok documents
  | t :: ts, documents =>
    match compressStep query callbacks documents t with
    | .ok d2 => compressLoop query callbacks ts d2
    | .error e => .error e

/-- The `for _transformer in self.transformers` loop of `acompress_documents`. -/
def acompressLoop (query : String) (callbacks : Option Callbacks) :
    List TransformerElem → List Document → Except String (List Document)
  | [], documents => .ok documents
  | t :: ts, documents =>
    match acompressStep query callbacks documents t with
    | .ok d2 => acompressLoop query callbacks ts d2
    | .error e => .error e

/-- The pipeline object: its only state is the `transformers` field. -/
structure DocumentCompressorPipeline where
  transformers : List TransformerElem

/-- `DocumentCompressorPipeline.compress_documents` (source lines 48-73). -/
def DocumentCompressorPipeline.compress_documents
    (p : DocumentCompressorPipeline) (documents : List Document)
    (query : String) (callbacks : Option Callbacks) :
    Except String (List Document) :=
  compressLoop query callbacks p.transformers documents

/-- `DocumentCompressorPipeline.acompress_documents` (source lines 75-100). -/
def DocumentCompressorPipeline.acompress_documents
    (p : DocumentCompressorPipeline) (documents : List Document)
    (query : String) (callbacks : Option Callbacks) :
    Except String (List Document) :=
  acompressLoop query callbacks p.transformers documents

/-- The synchronous loop, instrumented to also record which transformers were
actually invoked, in invocation order. -/
def compressLoopTraced (query : String) (callbacks : Option Callbacks) :
    List TransformerElem → List Document →
    Except String (List Document) × List TransformerElem
  | [], documents => (.ok documents, [])
  | t :: ts, documents =>
    match compressStep query callbacks documents t with
    | .ok d2 =>
        let r := compressLoopTraced query callbacks ts d2
        (r.1, t :: r.2)
    | .error e => (.error e, [t])

/-- The asynchronous loop, instrumented to record invoked transformers. -/
def acompressLoopTraced (query : String) (callbacks : Option Callbacks) :
    List TransformerElem → List Document →
    Except String (List Document) × List TransformerElem
  | [], documents => (.ok documents, [])
  | t :: ts, documents =>
    match acompressStep query callbacks documents t with
    | .ok d2 =>
        let r := acompressLoopTraced query callbacks ts d2
        (r.1, t :: r.2)
    | .error e => (.error e, [t])

/-- The synchronous loop with the object state threaded explicitly: `tfield`
is `self.transformers`, which no statement of the method body assigns; the
returned triple is (raised error if any, final `self.transformers`, final
local `documents`). -/
def compressLoopSt (query : String) (callbacks : Option Callbacks)
    (tfield : List TransformerElem) :
    List TransformerElem → List Document →
    Option String × List TransformerElem × List Document
  | [], documents => (none, tfield, documents)
  | t :: ts, documents =>
    match compressStep query callbacks documents t with
    | .ok d2 => compressLoopSt query callbacks tfield ts d2
    | .error e => (some e, tfield, documents)

/-- The asynchronous loop with the object state threaded explicitly. -/
def acompressLoopSt (query : String) (callbacks : Option Callbacks)
    (tfield : List TransformerElem) :
    List TransformerElem → List Document →
    Option String × List TransformerElem × List Document
  | [], documents => (none, tfield, documents)
  | t :: ts, documents =>
    match acompressStep query callbacks documents t with
    | .ok d2 => acompressLoopSt query callbacks tfield ts d2
    | .error e => (some e, tfield, documents)

/-! Helper lemmas about the loops. -/

theorem compressLoop_eq_foldlM (query : String) (callbacks : Option Callbacks)
    (ts : List TransformerElem) (documents : List Document) :
    compressLoop query callbacks ts documents =
      ts.foldlM (fun d t => compressStep query callbacks d t) documents := by
  induction ts generalizing documents with
  | nil => rfl
  | cons t ts ih =>
    simp only [compressLoop, List.foldlM_cons]
    cases compressStep query callbacks documents t with
    | ok d2 => simpa [Except.bind] using ih d2
    | error e => rfl

theorem acompressLoop_eq_foldlM (query : String) (callbacks : Option Callbacks)
    (ts : List TransformerElem) (documents : List Document) :
    acompressLoop query callbacks ts documents =
      ts.foldlM (fun d t => acompressStep query callbacks d t) documents := by
  induction ts generalizing documents with
  | nil => rfl
  | cons t ts ih =>
    simp only [acompressLoop, List.foldlM_cons]
    cases acompressStep query callbacks documents t with
    | ok d2 => simpa [Except.bind] using ih d2
    | error e => rfl

/-! Claim theorems. -/

/-- C1: `DocumentCompressorPipeline.compress_documents` is the left monadic
fold of the delegate step over the input documents along the transformers
list: each element contributes exactly one step, in list order, each step's
output feeding the next, the last step's output being returned (compressors
are called through `compress_documents` with the same query, transformers
through `transform_documents`, as `compressStep` records). -/
theorem compress_documents_is_foldlM (p : DocumentCompressorPipeline)
    (documents : List Document) (query : String)
    (callbacks : Option Callbacks) :
    p.compress_documents documents query callbacks =
      p.transformers.foldlM (fun d t => compressStep query callbacks d t)
        documents :=
  compressLoop_eq_foldlM query callbacks p.transformers documents

/-- C4: the default `BaseDocumentCompressor.acompress_documents`, which hands
the synchronous `compress_documents` to a background executor, returns exactly
the value `compress_documents` returns on the same documents, query and
callbacks. -/
theorem acompress_documents_default_eq (c : BaseDocumentCompressor)
    (documents : List Document) (query : String)
    (callbacks : Option Callbacks) :
    c.acompress_documents_default documents query callbacks =
      c.compressFn documents query callbacks := rfl

/-- C6: a pipeline with an empty transformers list returns its input documents
unchanged, both synchronously and asynchronously. -/
theorem compress_documents_empty_id (documents : List Document)
    (query : String) (callbacks : Option Callbacks) :
    DocumentCompressorPipeline.compress_documents ⟨[]⟩ documents query
        callbacks = .ok documents ∧
    DocumentCompressorPipeline.acompress_documents ⟨[]⟩ documents query
        callbacks = .ok documents :=
  ⟨rfl, rfl⟩

/-! Concrete objects used by counterexamples and witnesses. -/

/-- A sample input document. -/
def docA : Document := ⟨"alpha", []⟩

/-- A document fabricated by a delegate, distinct from every input document. -/
def docNew : Document := ⟨"fabricated", []⟩

/-- A compressor that ignores its input and returns the fabricated document. -/
def growComp : BaseDocumentCompressor :=
  ⟨fun _ _ _ => [docNew], fun _ _ _ => [docNew], true, true⟩

/-- A pipeline holding only `growComp`. -/
def growPipeline : DocumentCompressorPipeline := ⟨[.comp growComp]⟩

/-- The identity document transformer. -/
def idTrans : BaseDocumentTransformer := ⟨fun d => d, fun d => d⟩

/-- A pipeline holding only the identity transformer. -/
def idPipeline : DocumentCompressorPipeline := ⟨[.trans idTrans]⟩

/-! C2: the subset claim. -/

/-- A pipeline element returns only documents drawn from its input. -/
def stepPreservesSubset : TransformerElem → Prop
  | .comp c => ∀ d q cb, ∀ x ∈ c.compressFn d q cb, x ∈ d
  | .trans t => ∀ d, ∀ x ∈ t.transformFn d, x ∈ d
  | .other _ => True

theorem compressStep_subset (query : String) (callbacks : Option Callbacks)
    (documents d2 : List Document) (t : TransformerElem)
    (hp : stepPreservesSubset t)
    (hstep : compressStep query callbacks documents t = .ok d2) :
    d2 ⊆ documents := by
  cases t with
  | comp c =>
    simp only [stepPreservesSubset] at hp
    cases hb : c.syncAcceptsCallbacks with
    | true =>
      simp [compressStep, hb] at hstep
      subst hstep
      exact fun x hx => hp documents query callbacks x hx
    | false =>
      simp [compressStep, hb] at hstep
      subst hstep
      exact fun x hx => hp documents query none x hx
  | trans tr =>
    simp only [stepPreservesSubset] at hp
    simp [compressStep] at hstep
    subst hstep
    exact fun x hx => hp documents x hx
  | other r => simp [compressStep] at hstep

theorem compressLoop_subset (query : String) (callbacks : Option Callbacks)
    (ts : List TransformerElem) (documents out : List Document)
    (hsub : ∀ t ∈ ts, stepPreservesSubset t)
    (hok : compressLoop query callbacks ts documents = .ok out) :
    out ⊆ documents := by
  induction ts generalizing documents with
  | nil =>
    simp only [compressLoop, Except.ok.injEq] at hok
    exact fun x hx => hok ▸ hx
  | cons t ts ih =>
    simp only [compressLoop] at hok
    cases hstep : compressStep query callbacks documents t with
    | error e => rw [hstep] at hok; cases hok
    | ok d2 =>
      rw [hstep] at hok
      have h2 : d2 ⊆ documents :=
        compressStep_subset query callbacks documents d2 t
          (hsub t (List.mem_cons_self t ts)) hstep
      have h3 : out ⊆ d2 :=
        ih d2 (fun u hu => hsub u (List.mem_cons_of_mem t hu)) hok
      exact fun x hx => h2 (h3 hx)

/-- C2 counterexample: `growComp.compress_documents` (hence the pipeline built
from it) returns a document that is not an element of the input sequence, so
compressors need not return a subset of their input. -/
theorem compress_documents_not_subset :
    growPipeline.compress_documents [docA] "q" none = .ok [docNew] ∧
    docNew ∉ [docA] := by
  refine ⟨rfl, ?_⟩
  simp [docNew, docA]

/-- C2 (amended): if every transformer in the pipeline returns only documents
drawn from its own input, then every document returned by
`compress_documents` is an element of the input documents. -/
theorem compress_documents_subset (p : DocumentCompressorPipeline)
    (documents out : List Document) (query : String)
    (callbacks : Option Callbacks)
    (hsub : ∀ t ∈ p.transformers, stepPreservesSubset t)
    (hok : p.compress_documents documents query callbacks = .ok out) :
    out ⊆ documents :=
  compressLoop_subset query callbacks p.transformers documents out hsub hok

/-- C2 witness: the amended theorem evaluated on the identity pipeline. -/
theorem compress_documents_subset_witness : ([docA] : List Document) ⊆ [docA] :=
  compress_documents_subset idPipeline [docA] [docA] "q" none
    (by
      intro t ht
      simp only [idPipeline, List.mem_singleton] at ht
      subst ht
      intro d x hx
      simpa [idTrans] using hx)
    rfl

/-! C7: query and callback independence for transformer-only pipelines. -/

theorem compressLoop_query_independent (q1 q2 : String)
    (cb1 cb2 : Option Callbacks) (ts : List TransformerElem)
    (documents : List Document) (h : ∀ t ∈ ts, t.isTrans = true) :
    compressLoop q1 cb1 ts documents = compressLoop q2 cb2 ts documents := by
  induction ts generalizing documents with
  | nil => rfl
  | cons t ts ih =>
    have ht := h t (List.mem_cons_self t ts)
    cases t with
    | comp c => simp [TransformerElem.isTrans] at ht
    | other r => simp [TransformerElem.isTrans] at ht
    | trans tr =>
      simp only [compressLoop, compressStep]
      exact ih (tr.transformFn documents)
        (fun u hu => h u (List.mem_cons_of_mem _ hu))

theorem acompressLoop_query_independent (q1 q2 : String)
    (cb1 cb2 : Option Callbacks) (ts : List TransformerElem)
    (documents : List Document) (h : ∀ t ∈ ts, t.isTrans = true) :
    acompressLoop q1 cb1 ts documents = acompressLoop q2 cb2 ts documents := by
  induction ts generalizing documents with
  | nil => rfl
  | cons t ts ih =>
    have ht := h t (List.mem_cons_self t ts)
    cases t with
    | comp c => simp [TransformerElem.isTrans] at ht
    | other r => simp [TransformerElem.isTrans] at ht
    | trans tr =>
      simp only [acompressLoop, acompressStep]
      exact ih (tr.atransformFn documents)
        (fun u hu => h u (List.mem_cons_of_mem _ hu))

/-- C7: if every element of the transformers list is a
`BaseDocumentTransformer`, the result of `compress_documents` (and of
`acompress_documents`) does not depend on the query or the callbacks. -/
theorem compress_documents_query_independent (p : DocumentCompressorPipeline)
    (documents : List Document) (q1 q2 : String)
    (cb1 cb2 : Option Callbacks)
    (h : ∀ t ∈ p.transformers, t.isTrans = true) :
    p.compress_documents documents q1 cb1 =
        p.compress_documents documents q2 cb2 ∧
    p.acompress_documents documents q1 cb1 =
        p.acompress_documents documents q2 cb2 :=
  ⟨compressLoop_query_independent q1 q2 cb1 cb2 p.transformers documents h,
   acompressLoop_query_independent q1 q2 cb1 cb2 p.transformers documents h⟩

/-- C7 witness: the identity pipeline run with two different queries and
callbacks. -/
theorem compress_documents_query_independent_witness :
    idPipeline.compress_documents [docA] "a" none =
        idPipeline.compress_documents [docA] "b" (some ["h"]) ∧
    idPipeline.acompress_documents [docA] "a" none =
        idPipeline.acompress_documents [docA] "b" (some ["h"]) :=
  compress_documents_query_independent idPipeline [docA] "a" "b" none
    (some ["h"])
    (by
      intro t ht
      simp only [idPipeline, List.mem_singleton] at ht
      subst ht
      rfl)

/-! C3: the asynchronous pipeline mirrors the synchronous one. -/

/-- The asynchronous face of a pipeline element agrees with its synchronous
face: the method bodies are equal as functions and the two signatures agree on
declaring a `callbacks` parameter. -/
def asyncAgreesSync : TransformerElem → Prop
  | .comp c => c.acompressFn = c.compressFn ∧
      c.asyncAcceptsCallbacks = c.syncAcceptsCallbacks
  | .trans t => t.atransformFn = t.transformFn
  | .other _ => True

theorem acompressStep_eq_compressStep (query : String)
    (callbacks : Option Callbacks) (documents : List Document)
    (t : TransformerElem) (h : asyncAgreesSync t) :
    acompressStep query callbacks documents t =
      compressStep query callbacks documents t := by
  cases t with
  | comp c =>
    simp only [asyncAgreesSync] at h
    simp [acompressStep, compressStep, h.1, h.2]
  | trans tr =>
    simp only [asyncAgreesSync] at h
    simp [acompressStep, compressStep, h]
  | other r => rfl

theorem acompressLoop_eq_compressLoop (query : String)
    (callbacks : Option Callbacks) (ts : List TransformerElem)
    (documents : List Document) (h : ∀ t ∈ ts, asyncAgreesSync t) :
    acompressLoop query callbacks ts documents =
      compressLoop query callbacks ts documents := by
  induction ts generalizing documents with
  | nil => rfl
  | cons t ts ih =>
    simp only [acompressLoop, compressLoop,
      acompressStep_eq_compressStep query callbacks documents t
        (h t (List.mem_cons_self t ts))]
    cases compressStep query callbacks documents t with
    | ok d2 => exact ih d2 (fun u hu => h u (List.mem_cons_of_mem _ hu))
    | error e => rfl

/-- A compressor body that drops every document when callbacks are supplied
and keeps them all otherwise. -/
def cbSensitiveFn : List Document → String → Option Callbacks → List Document :=
  fun documents _ cb =>
    match cb with
    | some _ => []
    | none => documents

/-- A compressor whose synchronous signature declares `callbacks` but whose
asynchronous signature does not, with identical method bodies. -/
def mixedSigComp : BaseDocumentCompressor :=
  ⟨cbSensitiveFn, cbSensitiveFn, true, false⟩

/-- A pipeline holding only `mixedSigComp`. -/
def mixedSigPipeline : DocumentCompressorPipeline := ⟨[.comp mixedSigComp]⟩

/-- C3 counterexample: `mixedSigComp`'s asynchronous body equals its
synchronous body as a function, yet the asynchronous pipeline differs from the
synchronous one on a concrete input, because `compress_documents` inspects the
synchronous signature (which declares `callbacks`) while
`acompress_documents` inspects the asynchronous signature (which does not), so
the two runs hand the delegate different callback arguments. -/
theorem acompress_documents_ne_compress_documents :
    mixedSigComp.acompressFn = mixedSigComp.compressFn ∧
    mixedSigPipeline.acompress_documents [docA] "q" (some ["h"]) =
      .ok [docA] ∧
    mixedSigPipeline.compress_documents [docA] "q" (some ["h"]) = .ok [] ∧
    mixedSigPipeline.acompress_documents [docA] "q" (some ["h"]) ≠
      mixedSigPipeline.compress_documents [docA] "q" (some ["h"]) := by
  refine ⟨rfl, rfl, rfl, ?_⟩
  intro hcontra
  have h2 : (Except.ok [docA] : Except String (List Document)) =
      Except.ok [] := hcontra
  simp at h2

/-- C3 (amended): if every element of the transformers list has an
asynchronous method body equal to its synchronous one AND an asynchronous
signature that declares `callbacks` exactly when the synchronous one does,
then `acompress_documents` returns the same result as `compress_documents` on
every input. -/
theorem acompress_documents_eq_compress_documents
    (p : DocumentCompressorPipeline) (documents : List Document)
    (query : String) (callbacks : Option Callbacks)
    (h : ∀ t ∈ p.transformers, asyncAgreesSync t) :
    p.acompress_documents documents query callbacks =
      p.compress_documents documents query callbacks :=
  acompressLoop_eq_compressLoop query callbacks p.transformers documents h

/-- C3 witness: the amended theorem evaluated on the identity pipeline. -/
theorem acompress_documents_eq_compress_documents_witness :
    idPipeline.acompress_documents [docA] "q" none =
      idPipeline.compress_documents [docA] "q" none :=
  acompress_documents_eq_compress_documents idPipeline [docA] "q" none
    (by
      intro t ht
      simp only [idPipeline, List.mem_singleton] at ht
      subst ht
      exact rfl)

/-! C8: one delegate call per list element, via the traced loop. -/

theorem compressLoopTraced_fst (query : String) (callbacks : Option Callbacks)
    (ts : List TransformerElem) (documents : List Document) :
    (compressLoopTraced query callbacks ts documents).1 =
      compressLoop query callbacks ts documents := by
  induction ts generalizing documents with
  | nil => rfl
  | cons t ts ih =>
    simp only [compressLoopTraced, compressLoop]
    cases compressStep query callbacks documents t with
    | ok d2 => simpa using ih d2
    | error e => rfl

theorem compressLoopTraced_initial_segment (query : String)
    (callbacks : Option Callbacks) (ts : List TransformerElem)
    (documents : List Document) :
    ∃ rest, ts = (compressLoopTraced query callbacks ts documents).2 ++ rest := by
  induction ts generalizing documents with
  | nil => exact ⟨[], rfl⟩
  | cons t ts ih =>
    simp only [compressLoopTraced]
    cases compressStep query callbacks documents t with
    | ok d2 =>
      obtain ⟨rest, hrest⟩ := ih d2
      refine ⟨rest, ?_⟩
      simpa using congrArg (List.cons t) hrest
    | error e => exact ⟨ts, rfl⟩

theorem compressLoopTraced_ok_full (query : String)
    (callbacks : Option Callbacks) (ts : List TransformerElem)
    (documents out : List Document)
    (hok : compressLoop query callbacks ts documents = .ok out) :
    (compressLoopTraced query callbacks ts documents).2 = ts := by
  induction ts generalizing documents with
  | nil => rfl
  | cons t ts ih =>
    simp only [compressLoop] at hok
    simp only [compressLoopTraced]
    cases hstep : compressStep query callbacks documents t with
    | ok d2 =>
      simp only [hstep] at hok
      simpa using ih d2 hok
    | error e =>
      simp only [hstep] at hok
      cases hok

/-- C8: the synchronous pipeline makes exactly one delegate call per reached
list element and performs no other iteration: the invocation trace is an
initial segment of the transformers list, it is the entire list whenever the
call succeeds, and the traced run returns the same result as
`compress_documents` (which is total, being structural recursion on the
list). -/
theorem compress_documents_one_call_per_element
    (p : DocumentCompressorPipeline) (documents : List Document)
    (query : String) (callbacks : Option Callbacks) :
    (compressLoopTraced query callbacks p.transformers documents).1 =
      p.compress_documents documents query callbacks ∧
    (∃ rest, p.transformers =
      (compressLoopTraced query callbacks p.transformers documents).2 ++ rest) ∧
    (∀ out, p.compress_documents documents query callbacks = .ok out →
      (compressLoopTraced query callbacks p.transformers documents).2 =
        p.transformers) :=
  ⟨compressLoopTraced_fst query callbacks p.transformers documents,
   compressLoopTraced_initial_segment query callbacks p.transformers documents,
   fun out hok =>
     compressLoopTraced_ok_full query callbacks p.transformers documents out hok⟩

/-- C8 witness: on the identity pipeline the successful trace is the whole
transformers list. -/
theorem compress_documents_one_call_per_element_witness :
    (compressLoopTraced "q" none idPipeline.transformers [docA]).2 =
      idPipeline.transformers :=
  (compress_documents_one_call_per_element idPipeline [docA] "q" none).2.2
    [docA] rfl

/-! C5: when and how the loops raise ValueError. -/

theorem compressLoop_error_iff (query : String) (callbacks : Option Callbacks)
    (ts : List TransformerElem) (documents : List Document) :
    (∃ e, compressLoop query callbacks ts documents = .error e) ↔
      ∃ t ∈ ts, t.isOther = true := by
  induction ts generalizing documents with
  | nil => simp [compressLoop]
  | cons t ts ih =>
    cases t with
    | comp c =>
      cases hb : c.syncAcceptsCallbacks with
      | true => simp [compressLoop, compressStep, hb, ih, TransformerElem.isOther]
      | false => simp [compressLoop, compressStep, hb, ih, TransformerElem.isOther]
    | trans tr => simp [compressLoop, compressStep, ih, TransformerElem.isOther]
    | other r => simp [compressLoop, compressStep, TransformerElem.isOther]

theorem acompressLoop_error_iff (query : String) (callbacks : Option Callbacks)
    (ts : List TransformerElem) (documents : List Document) :
    (∃ e, acompressLoop query callbacks ts documents = .error e) ↔
      ∃ t ∈ ts, t.isOther = true := by
  induction ts generalizing documents with
  | nil => simp [acompressLoop]
  | cons t ts ih =>
    cases t with
    | comp c =>
      cases hb : c.asyncAcceptsCallbacks with
      | true => simp [acompressLoop, acompressStep, hb, ih, TransformerElem.isOther]
      | false => simp [acompressLoop, acompressStep, hb, ih, TransformerElem.isOther]
    | trans tr => simp [acompressLoop, acompressStep, ih, TransformerElem.isOther]
    | other r => simp [acompressLoop, acompressStep, TransformerElem.isOther]

theorem compressLoop_first_other (query : String) (callbacks : Option Callbacks)
    (r : String) (pre post : List TransformerElem) (documents : List Document)
    (hpre : ∀ t ∈ pre, t.isOther = false) :
    compressLoop query callbacks (pre ++ TransformerElem.other r :: post)
        documents = .error ("Got unexpected transformer type: " ++ r) ∧
    (compressLoopTraced query callbacks (pre ++ TransformerElem.other r :: post)
        documents).2 = pre ++ [TransformerElem.other r] := by
  induction pre generalizing documents with
  | nil => simp [compressLoop, compressLoopTraced, compressStep]
  | cons t pre ih =>
    have hpre2 : ∀ u ∈ pre, u.isOther = false :=
      fun u hu => hpre u (List.mem_cons_of_mem _ hu)
    cases t with
    | comp c =>
      cases hb : c.syncAcceptsCallbacks with
      | true =>
        have ih2 := ih (c.compressFn documents query callbacks) hpre2
        simp [compressLoop, compressLoopTraced, compressStep, hb, ih2.1, ih2.2]
      | false =>
        have ih2 := ih (c.compressFn documents query none) hpre2
        simp [compressLoop, compressLoopTraced, compressStep, hb, ih2.1, ih2.2]
    | trans tr =>
      have ih2 := ih (tr.transformFn documents) hpre2
      simp [compressLoop, compressLoopTraced, compressStep, ih2.1, ih2.2]
    | other r2 =>
      have hfalse := hpre (TransformerElem.other r2) (List.mem_cons_self _ _)
      simp [TransformerElem.isOther] at hfalse

theorem acompressLoop_first_other (query : String) (callbacks : Option Callbacks)
    (r : String) (pre post : List TransformerElem) (documents : List Document)
    (hpre : ∀ t ∈ pre, t.isOther = false) :
    acompressLoop query callbacks (pre ++ TransformerElem.other r :: post)
        documents = .error ("Got unexpected transformer type: " ++ r) ∧
    (acompressLoopTraced query callbacks (pre ++ TransformerElem.other r :: post)
        documents).2 = pre ++ [TransformerElem.other r] := by
  induction pre generalizing documents with
  | nil => simp [acompressLoop, acompressLoopTraced, acompressStep]
  | cons t pre ih =>
    have hpre2 : ∀ u ∈ pre, u.isOther = false :=
      fun u hu => hpre u (List.mem_cons_of_mem _ hu)
    cases t with
    | comp c =>
      cases hb : c.asyncAcceptsCallbacks with
      | true =>
        have ih2 := ih (c.acompressFn documents query callbacks) hpre2
        simp [acompressLoop, acompressLoopTraced, acompressStep, hb, ih2.1, ih2.2]
      | false =>
        have ih2 := ih (c.acompressFn documents query none) hpre2
        simp [acompressLoop, acompressLoopTraced, acompressStep, hb, ih2.1, ih2.2]
    | trans tr =>
      have ih2 := ih (tr.atransformFn documents) hpre2
      simp [acompressLoop, acompressLoopTraced, acompressStep, ih2.1, ih2.2]
    | other r2 =>
      have hfalse := hpre (TransformerElem.other r2) (List.mem_cons_self _ _)
      simp [TransformerElem.isOther] at hfalse

theorem compressLoopSt_preserves (query : String) (callbacks : Option Callbacks)
    (tfield ts : List TransformerElem) (documents : List Document) :
    (compressLoopSt query callbacks tfield ts documents).2.1 = tfield := by
  induction ts generalizing documents with
  | nil => rfl
  | cons t ts ih =>
    simp only [compressLoopSt]
    cases compressStep query callbacks documents t with
    | ok d2 => exact ih d2
    | error e => rfl

theorem acompressLoopSt_preserves (query : String) (callbacks : Option Callbacks)
    (tfield ts : List TransformerElem) (documents : List Document) :
    (acompressLoopSt query callbacks tfield ts documents).2.1 = tfield := by
  induction ts generalizing documents with
  | nil => rfl
  | cons t ts ih =>
    simp only [acompressLoopSt]
    cases acompressStep query callbacks documents t with
    | ok d2 => exact ih d2
    | error e => rfl

theorem compressLoopSt_consistent (query : String) (callbacks : Option Callbacks)
    (tfield ts : List TransformerElem) (documents : List Document) :
    compressLoop query callbacks ts documents =
      match (compressLoopSt query callbacks tfield ts documents).1 with
      | none => .ok (compressLoopSt query callbacks tfield ts documents).2.2
      | some e => .error e := by
  induction ts generalizing documents with
  | nil => rfl
  | cons t ts ih =>
    simp only [compressLoop, compressLoopSt]
    cases compressStep query callbacks documents t with
    | ok d2 => exact ih d2
    | error e => rfl

theorem acompressLoopSt_consistent (query : String) (callbacks : Option Callbacks)
    (tfield ts : List TransformerElem) (documents : List Document) :
    acompressLoop query callbacks ts documents =
      match (acompressLoopSt query callbacks tfield ts documents).1 with
      | none => .ok (acompressLoopSt query callbacks tfield ts documents).2.2
      | some e => .error e := by
  induction ts generalizing documents with
  | nil => rfl
  | cons t ts ih =>
    simp only [acompressLoop, acompressLoopSt]
    cases acompressStep query callbacks documents t with
    | ok d2 => exact ih d2
    | error e => rfl

/-- C5: both pipeline methods raise `ValueError` if and only if the
transformers list contains an element that is neither a compressor nor a
transformer; when the first such element is reached the loop stops there — the
invocation trace is exactly the transformers before it plus the offending
element, and the raised message names that element — and the state-threaded
run shows the `transformers` field intact on every run, raising included. -/
theorem compress_documents_error_iff (p : DocumentCompressorPipeline)
    (documents : List Document) (query : String)
    (callbacks : Option Callbacks) :
    ((∃ e, p.compress_documents documents query callbacks = .error e) ↔
      ∃ t ∈ p.transformers, t.isOther = true) ∧
    ((∃ e, p.acompress_documents documents query callbacks = .error e) ↔
      ∃ t ∈ p.transformers, t.isOther = true) ∧
    (∀ r pre post, p.transformers = pre ++ TransformerElem.other r :: post →
      (∀ t ∈ pre, t.isOther = false) →
      p.compress_documents documents query callbacks =
          .error ("Got unexpected transformer type: " ++ r) ∧
      (compressLoopTraced query callbacks p.transformers documents).2 =
          pre ++ [TransformerElem.other r] ∧
      p.acompress_documents documents query callbacks =
          .error ("Got unexpected transformer type: " ++ r) ∧
      (acompressLoopTraced query callbacks p.transformers documents).2 =
          pre ++ [TransformerElem.other r]) ∧
    (compressLoopSt query callbacks p.transformers p.transformers
        documents).2.1 = p.transformers ∧
    (acompressLoopSt query callbacks p.transformers p.transformers
        documents).2.1 = p.transformers := by
  refine ⟨compressLoop_error_iff query callbacks p.transformers documents,
    acompressLoop_error_iff query callbacks p.transformers documents,
    ?_,
    compressLoopSt_preserves query callbacks p.transformers p.transformers
      documents,
    acompressLoopSt_preserves query callbacks p.transformers p.transformers
      documents⟩
  intro r pre post heq hpre
  have h1 := compressLoop_first_other query callbacks r pre post documents hpre
  have h2 := acompressLoop_first_other query callbacks r pre post documents hpre
  simp only [DocumentCompressorPipeline.compress_documents,
    DocumentCompressorPipeline.acompress_documents, heq]
  exact ⟨h1.1, h1.2, h2.1, h2.2⟩

/-- A pipeline whose second element is an unexpected value. -/
def badPipeline : DocumentCompressorPipeline :=
  ⟨[.trans idTrans, .other "<int 3>"]⟩

/-- C5 witness: on `badPipeline` the run raises the `ValueError` message of
the unexpected element and the invocation trace stops at it. -/
theorem compress_documents_error_iff_witness :
    badPipeline.compress_documents [docA] "q" none =
      .error ("Got unexpected transformer type: " ++ "<int 3>") ∧
    (compressLoopTraced "q" none badPipeline.transformers [docA]).2 =
      [TransformerElem.trans idTrans] ++ [TransformerElem.other "<int 3>"] := by
  have h := (compress_documents_error_iff badPipeline [docA] "q" none).2.2.1
    "<int 3>" [TransformerElem.trans idTrans] [] rfl
    (by
      intro t ht
      simp only [List.mem_singleton] at ht
      subst ht
      rfl)
  exact ⟨h.1, h.2.1⟩

/-! C9: the transformers field is the pipeline's only state and no run
changes it. -/

/-- C9: threading `self.transformers` through either loop returns it intact
(raising or not), the threaded run computes the same result as the plain
method, and rerunning either method on the pipeline rebuilt from the post-run
field repeats the original result — so the same pipeline applied twice to the
same input yields the same answer. -/
theorem compress_documents_preserves_transformers
    (p : DocumentCompressorPipeline) (documents : List Document)
    (query : String) (callbacks : Option Callbacks) :
    (compressLoopSt query callbacks p.transformers p.transformers
        documents).2.1 = p.transformers ∧
    (acompressLoopSt query callbacks p.transformers p.transformers
        documents).2.1 = p.transformers ∧
    (p.compress_documents documents query callbacks =
      match (compressLoopSt query callbacks p.transformers p.transformers
          documents).1 with
      | none => .ok (compressLoopSt query callbacks p.transformers
          p.transformers documents).2.2
      | some e => .error e) ∧
    DocumentCompressorPipeline.compress_documents
        ⟨(compressLoopSt query callbacks p.transformers p.transformers
          documents).2.1⟩ documents query callbacks =
      p.compress_documents documents query callbacks ∧
    DocumentCompressorPipeline.acompress_documents
        ⟨(acompressLoopSt query callbacks p.transformers p.transformers
          documents).2.1⟩ documents query callbacks =
      p.acompress_documents documents query callbacks := by
  refine ⟨compressLoopSt_preserves query callbacks p.transformers
      p.transformers documents,
    acompressLoopSt_preserves query callbacks p.transformers p.transformers
      documents,
    compressLoopSt_consistent query callbacks p.transformers p.transformers
      documents,
    ?_, ?_⟩
  · rw [compressLoopSt_preserves query callbacks p.transformers p.transformers
      documents]
  · rw [acompressLoopSt_preserves query callbacks p.transformers
      p.transformers documents]
